import Mathlib

/-!
Verification development for the contract-processor repository.

The definitions below are a shallow embedding of the TypeScript sources:
  * `src/types/contract.types.ts`   — `ContractData`, `ProcessingJob`
  * `src/services/processor.service.ts` — `ProcessorService`
  * `src/services/pdf.service.ts`   — `PDFService.isValidPDF`
  * `src/services/ai.service.ts`    — `AIService.generateDemoData`
  * `src/services/confluence.service.ts` — `ConfluenceService.createContractPage`
  * `src/routes/contract.routes.ts` — the POST /process route
  * `src/index.ts`                  — the installed (inline) error handler

Machine conventions: timestamps (`Date`) are modelled as `Nat`; JavaScript
`undefined`-able fields as `Option`; a provider call that can throw as
`Except String` (the catch converts non-`Error` throwables to the string
"Unknown error", so a thrown message is always a `String`); `Map<string,
ProcessingJob>` as an insertion-ordered association list with JavaScript
`Map.set` semantics (replace in place, else append).
-/

namespace ContractProcessor

/-- Party record; `role: 'provider' | 'recipient' | 'other'` is kept as a raw `String`
so that the zod enum check of `ContractDataSchema` stays a runtime check,
exactly as in the source. -/
structure Party where
  name : String
  role : String
  address : Option String
deriving Repr, DecidableEq

structure Obligation where
  party : String
  description : String
deriving Repr, DecidableEq

structure ContractValue where
  amount : Option Int
  currency : Option String
deriving Repr, DecidableEq

/-- Structure `ContractData` from `src/types/contract.types.ts` (the interface the
services exchange; `aiSummary`/`templateData` are the extra free-text
fields that `AIService` emits and `ConfluenceService` reads). -/
structure ContractData where
  contractTitle : String
  contractNumber : Option String
  effectiveDate : String
  expirationDate : Option String
  parties : List Party
  contractValue : Option ContractValue
  keyTerms : List String
  obligations : List Obligation
  renewalTerms : Option String
  terminationClauses : Option (List String)
  governingLaw : Option String
  specialProvisions : Option (List String)
  aiSummary : Option String
  templateData : Option String
deriving Repr, DecidableEq

inductive JobStatus where
  | pending
  | processing
  | completed
  | failed
deriving Repr, DecidableEq

/-- Structure `ProcessingJob` from `src/types/contract.types.ts`, plus the
`targetConfluenceUrl` field that `processor.service.ts` stores on the job. -/
structure ProcessingJob where
  id : String
  filename : String
  status : JobStatus
  createdAt : Nat
  completedAt : Option Nat
  error : Option String
  contractData : Option ContractData
  confluencePageUrl : Option String
  targetConfluenceUrl : Option String
deriving Repr, DecidableEq

/-- The in-memory job registry: `private jobs: Map<string, ProcessingJob>`,
as an insertion-ordered association list. -/
abbrev Registry := List (String × ProcessingJob)

/-- JavaScript `Map.get`. -/
def Registry.get : Registry → String → Option ProcessingJob
  | [], _ => none
  | (k, v) :: rest, id => if k = id then some v else Registry.get rest id

/-- JavaScript `Map.set`: replace in place (keeping insertion position) when
the key exists, append otherwise. -/
def Registry.set : Registry → String → ProcessingJob → Registry
  | [], id, j => [(id, j)]
  | (k, v) :: rest, id, j =>
      if k = id then (id, j) :: rest else (k, v) :: Registry.set rest id j

/-! ## The four pipeline collaborators as a provider environment

`executeProcessing` awaits `pdfService.isValidPDF`, `pdfService.extractText`,
`aiService.extractContractData` and `confluenceService.createContractPage`.
Each call either returns a value or throws; `isValidPDF` never throws
(see `PDFService.isValidPDF` below), so it is a plain `Bool` outcome. -/
structure Providers where
  isValidPDF : Bool
  extractText : Except String String
  extractContractData : String → Except String ContractData
  createContractPage : ContractData → Option String → Except String String

/-- Outcome of one background run: the final job record plus which
providers were invoked. `publishArg` records the actual arguments of the
`createContractPage` call when it happened. -/
structure ExecTrace where
  job : ProcessingJob
  textCalled : Bool
  aiCalled : Bool
  publishArg : Option (ContractData × Option String)
deriving Repr, DecidableEq

/-- The `catch` block of `executeProcessing`: `status='failed'`,
`completedAt=new Date()`, `error=<message>`. -/
def failJob (job : ProcessingJob) (t : Nat) (msg : String) : ProcessingJob :=
  { job with status := .failed, completedAt := some t, error := some msg }

/-- The `try` block of `ProcessorService.executeProcessing` after the
initial `job.status = 'processing'` assignment: the four stages in source
order, each gated on the previous one, with the `catch` applied to the
first thrown error. -/
def runStages (p : Providers) (t : Nat) (job : ProcessingJob) : ExecTrace :=
  if p.isValidPDF = false then
    -- `throw new Error('Invalid PDF file')`
    { job := failJob job t "Invalid PDF file",
      textCalled := false, aiCalled := false, publishArg := none }
  else
    match p.extractText with
    | .error e =>
        { job := failJob job t e,
          textCalled := true, aiCalled := false, publishArg := none }
    | .ok contractText =>
        match p.extractContractData contractText with
        | .error e =>
            { job := failJob job t e,
              textCalled := true, aiCalled := true, publishArg := none }
        | .ok contractData =>
            match p.createContractPage contractData job.targetConfluenceUrl with
            | .error e =>
                { job := failJob job t e, textCalled := true, aiCalled := true,
                  publishArg := some (contractData, job.targetConfluenceUrl) }
            | .ok confluenceUrl =>
                { job := { job with
                    status := .completed,
                    completedAt := some t,
                    contractData := some contractData,
                    confluencePageUrl := some confluenceUrl },
                  textCalled := true, aiCalled := true,
                  publishArg := some (contractData, job.targetConfluenceUrl) }

/-- Model of `ProcessorService.executeProcessing` acting on one job record: set
`status='processing'`, then run the stages. -/
def executeProcessing (p : Providers) (t : Nat) (job : ProcessingJob) : ExecTrace :=
  runStages p t { job with status := .processing }

/-- Model of `ProcessorService.processContract`: build the `pending` record, store it
under the fresh id, return the id. The background run is NOT part of this
function — the source fires `executeProcessing` without awaiting it, so the
returned value never depends on any pipeline stage. `jobId` models the
`uuidv4()` draw, `now` the `new Date()` call. -/
def processContract (jobs : Registry) (jobId filePath filename : String)
    (targetConfluenceUrl : Option String) (now : Nat) : String × Registry :=
  let job : ProcessingJob :=
    { id := jobId
      filename := filename
      status := .pending
      createdAt := now
      completedAt := none
      error := none
      contractData := none
      confluencePageUrl := none
      targetConfluenceUrl := targetConfluenceUrl }
  let _ := filePath  -- the upload path is handed to the background task only
  (jobId, jobs.set jobId job)

/-- Model of `ProcessorService.getJobStatus`, with the registry it leaves behind made
explicit: `return this.jobs.get(jobId)`. -/
def getJobStatus (jobs : Registry) (jobId : String) :
    Option ProcessingJob × Registry :=
  (jobs.get jobId, jobs)

/-- Model of `ProcessorService.getAllJobs`, with the registry it leaves behind made
explicit: `return Array.from(this.jobs.values())`. -/
def getAllJobs (jobs : Registry) : List ProcessingJob × Registry :=
  (jobs.map (·.2), jobs)

/-! ## `PDFService.isValidPDF`

The method reads the file (a failed read is caught and yields `false`),
decodes bytes 0..5 as UTF-8 via `Buffer.toString('utf-8', 0, 5)` and
compares with `'%PDF-'`. A file is a byte list; a failed read is `none`.
UTF-8 decoding is modelled per byte: an ASCII byte decodes to itself and
any byte ≥ 0x80 to U+FFFD — faithful for comparison against a pure-ASCII
target, because a multi-byte UTF-8 sequence never decodes to an ASCII
character. -/

def decodeByte (b : Nat) : Char :=
  if b < 128 then Char.ofNat b else '�'

/-- Model of `buffer.toString('utf-8', start, stop)` restricted as described above. -/
def bufToStringUtf8 (bytes : List Nat) (start stop : Nat) : String :=
  String.mk (((bytes.drop start).take (stop - start)).map decodeByte)

def PDFService.isValidPDF : Option (List Nat) → Bool
  | none => false
  | some dataBuffer => decide (bufToStringUtf8 dataBuffer 0 5 = "%PDF-")

/-- The five magic bytes of `'%PDF-'`. -/
def pdfMagic : List Nat := [37, 80, 68, 70, 45]

/-! ## `ConfluenceService.createContractPage` -/

/-- Uppercase hexadecimal digit, as `encodeURIComponent` emits. -/
def uriHexDigit (n : Nat) : Char :=
  if n < 10 then Char.ofNat (48 + n) else Char.ofNat (55 + n)

def percentEncodeByte (b : Nat) : String :=
  String.mk ['%', uriHexDigit (b / 16), uriHexDigit (b % 16)]

/-- UTF-8 encoding of one code point. -/
def utf8BytesOfChar (c : Char) : List Nat :=
  let n := c.toNat
  if n < 0x80 then [n]
  else if n < 0x800 then [0xC0 + n / 64, 0x80 + n % 64]
  else if n < 0x10000 then [0xE0 + n / 4096, 0x80 + (n / 64) % 64, 0x80 + n % 64]
  else [0xF0 + n / 262144, 0x80 + (n / 4096) % 64, 0x80 + (n / 64) % 64, 0x80 + n % 64]

/-- The characters ECMAScript `encodeURIComponent` leaves unescaped:
`A–Z a–z 0–9 - _ . ! ~ * ' ( )` (code points 45, 95, 46, 33, 126, 42, 39,
40, 41 for the punctuation). -/
def isUriUnreserved (c : Char) : Bool :=
  c.isAlpha || c.isDigit ||
    (c.toNat = 45 || c.toNat = 95 || c.toNat = 46 || c.toNat = 33 ||
     c.toNat = 126 || c.toNat = 42 || c.toNat = 39 || c.toNat = 40 ||
     c.toNat = 41)

/-- ECMAScript `encodeURIComponent`. -/
def encodeURIComponent (s : String) : String :=
  String.join (s.data.map fun c =>
    if isUriUnreserved c then String.singleton c
    else String.join ((utf8BytesOfChar c).map percentEncodeByte))

/-- JavaScript `a || b` where `a : string | undefined`: `a` is falsy when
`undefined` or the empty string. -/
def jsOrElse : Option String → String → String
  | some s, dflt => if s = "" then dflt else s
  | none, dflt => dflt

/-- JavaScript `a || b` on two strings. -/
def jsOrStr (a b : String) : String :=
  if a = "" then b else a

/-- The synthetic locator of the demo branch:
``targetUrl || `https://demo.confluence.com/wiki/spaces/DEMO/pages/123456/${encodeURIComponent(contractData.contractTitle)}` ``. -/
def demoPageUrl (contractData : ContractData) : String :=
  "https://demo.confluence.com/wiki/spaces/DEMO/pages/123456/"
    ++ encodeURIComponent contractData.contractTitle

/-- Model of `ConfluenceService.createContractPage`. The demo branch returns before
any remote interaction; the non-demo branch performs the axios POST and URL
assembly, abstracted as the `remotePost` outcome. The result pairs the
returned URL with whether a remote call was made. -/
def ConfluenceService.createContractPage (demoMode : Bool)
    (remotePost : Except String String)
    (contractData : ContractData) (targetUrl : Option String) :
    Except String (String × Bool) :=
  if demoMode then
    .ok (jsOrElse targetUrl (demoPageUrl contractData), false)
  else
    match remotePost with
    | .ok pageUrl => .ok (pageUrl, true)
    | .error e => .error e

/-! ## The POST /process route (`contract.routes.ts` + `index.ts`) -/

structure UploadedFile where
  path : String
  originalname : String
  mimetype : String
deriving Repr, DecidableEq

/-- An inbound multipart request: the single binary document field, if any,
and the `publishTarget` body field the spec describes. -/
structure PostRequest where
  file : Option UploadedFile
  publishTarget : Option String
deriving Repr, DecidableEq

structure PostResponse where
  status : Nat
  message : Option String
  jobId : Option String
  statusUrl : Option String
  error : Option String
deriving Repr, DecidableEq

/-- The POST /process route. Multer's `fileFilter` runs first: a file part
whose mimetype is not `application/pdf` makes multer error out with
`Error('Only PDF files are allowed')` before the handler runs; that error
reaches the inline error handler of `index.ts`, which answers with
`err.status || 500` — a plain `Error` carries no `status`, so the response
is 500. (The `errorHandler` of `error.middleware.ts`, which would map this
message to 400, is exported but never registered by `index.ts`.) With no
file the handler answers 400; with a stored PDF it calls
`processContract(req.file.path, req.file.originalname)` — only those two
arguments — and answers 202. -/
def postProcessRoute (jobs : Registry) (req : PostRequest) (freshId : String)
    (now : Nat) : PostResponse × Registry :=
  match req.file with
  | some f =>
      if f.mimetype = "application/pdf" then
        let r := processContract jobs freshId f.path f.originalname none now
        ({ status := 202, message := some "Contract processing started",
           jobId := some r.1,
           statusUrl := some ("/api/contracts/" ++ r.1 ++ "/status"),
           error := none }, r.2)
      else
        ({ status := 500, message := none, jobId := none, statusUrl := none,
           error := some "Only PDF files are allowed" }, jobs)
  | none =>
      ({ status := 400, message := none, jobId := none, statusUrl := none,
         error := some "No file uploaded" }, jobs)

/-! ## Registry states reachable through the service -/

/-- Registry states reachable through `ProcessorService` under a fixed
provider environment: the empty map at construction; `processContract`
adding a `pending` record; the background task's `status = 'processing'`
assignment on the record it fetched; the background task writing the
terminal record that `runStages` produced. The background task is the sole
writer, so these are exactly the writes the source performs. -/
inductive Reach (p : Providers) : Registry → Prop
  | nil : Reach p []
  | submit (r : Registry) (id filePath filename : String)
      (tgt : Option String) (t : Nat) :
      Reach p r → Reach p (processContract r id filePath filename tgt t).2
  | start (r : Registry) (id : String) (job : ProcessingJob) :
      Reach p r → r.get id = some job → job.status = .pending →
      Reach p (r.set id { job with status := .processing })
  | finish (r : Registry) (id : String) (job : ProcessingJob) (t : Nat) :
      Reach p r → r.get id = some job → job.status = .processing →
      Reach p (r.set id (runStages p t job).job)

/-- The terminal-field invariant of claim C2: `contractData` and
`confluencePageUrl` present iff `completed`; `error` present iff `failed`. -/
def jobFieldsConsistent (j : ProcessingJob) : Prop :=
  (j.contractData.isSome ↔ j.status = .completed) ∧
  (j.confluencePageUrl.isSome ↔ j.status = .completed) ∧
  (j.error.isSome ↔ j.status = .failed)

/-! ## `ContractDataSchema` (zod) over a JSON value model

`ContractDataSchema.parse` runs on an untyped JavaScript value, so the
schema is embedded as a boolean validator over a small JSON value type.
zod's default object mode accepts and strips unknown keys. -/

inductive Jval where
  | jnull
  | jstr (s : String)
  | jnum (n : Int)
  | jarr (elems : List Jval)
  | jobj (fields : List (String × Jval))
deriving Repr

/-- Field lookup in a JSON object; an absent key is `none`. -/
def jget (fields : List (String × Jval)) (k : String) : Option Jval :=
  (fields.find? (·.1 = k)).map (·.2)

def Jval.isStr : Jval → Bool
  | .jstr _ => true
  | _ => false

/-- Check of `z.string()` on a required key. -/
def reqStr (fields : List (String × Jval)) (k : String) : Bool :=
  match jget fields k with
  | some (.jstr _) => true
  | _ => false

/-- Check of `z.string().optional()`. -/
def optStr (fields : List (String × Jval)) (k : String) : Bool :=
  match jget fields k with
  | none => true
  | some (.jstr _) => true
  | _ => false

/-- Check of `z.number().optional()`. -/
def optNum (fields : List (String × Jval)) (k : String) : Bool :=
  match jget fields k with
  | none => true
  | some (.jnum _) => true
  | _ => false

/-- Check of `z.array(z.string()).optional()`. -/
def optStrArr (fields : List (String × Jval)) (k : String) : Bool :=
  match jget fields k with
  | none => true
  | some (.jarr xs) => xs.all Jval.isStr
  | _ => false

/-- One element of the `parties` array: `name`, `role` in the enum
`provider | recipient | other`, optional `address`. -/
def validParty (v : Jval) : Bool :=
  match v with
  | .jobj fs =>
      reqStr fs "name" &&
      (match jget fs "role" with
       | some (.jstr r) =>
           r = "provider" || r = "recipient" || r = "other"
       | _ => false) &&
      optStr fs "address"
  | _ => false

/-- One element of the `obligations` array. -/
def validObligation (v : Jval) : Bool :=
  match v with
  | .jobj fs => reqStr fs "party" && reqStr fs "description"
  | _ => false

/-- The optional `contractValue` object. -/
def validContractValue (fields : List (String × Jval)) : Bool :=
  match jget fields "contractValue" with
  | none => true
  | some (.jobj cv) => optNum cv "amount" && optStr cv "currency"
  | _ => false

/-- Schema `ContractDataSchema` from `src/types/contract.types.ts`, as the
predicate `ContractDataSchema.parse` decides (unknown keys are ignored, as
in zod's default object mode). -/
def ContractDataSchema.validate (v : Jval) : Bool :=
  match v with
  | .jobj fs =>
      reqStr fs "contractTitle" &&
      optStr fs "contractNumber" &&
      reqStr fs "effectiveDate" &&
      optStr fs "expirationDate" &&
      (match jget fs "parties" with
       | some (.jarr xs) => xs.all validParty
       | _ => false) &&
      validContractValue fs &&
      (match jget fs "keyTerms" with
       | some (.jarr xs) => xs.all Jval.isStr
       | _ => false) &&
      (match jget fs "obligations" with
       | some (.jarr xs) => xs.all validObligation
       | _ => false) &&
      optStr fs "renewalTerms" &&
      optStrArr fs "terminationClauses" &&
      optStr fs "governingLaw" &&
      optStrArr fs "specialProvisions"
  | _ => false

/-- An absent optional field contributes no key to the JSON object. -/
def optJField (k : String) : Option Jval → List (String × Jval)
  | some v => [(k, v)]
  | none => []

def Party.toJval (p : Party) : Jval :=
  .jobj ([("name", .jstr p.name), ("role", .jstr p.role)]
    ++ optJField "address" (p.address.map .jstr))

def Obligation.toJval (o : Obligation) : Jval :=
  .jobj [("party", .jstr o.party), ("description", .jstr o.description)]

def ContractValue.toJval (cv : ContractValue) : Jval :=
  .jobj (optJField "amount" (cv.amount.map .jnum)
    ++ optJField "currency" (cv.currency.map .jstr))

/-- The JavaScript object a `ContractData` record denotes, as zod sees it
(absent keys for absent optionals; `aiSummary`/`templateData` are among the
keys even though the schema does not mention them). -/
def ContractData.toJval (d : ContractData) : Jval :=
  .jobj ([("contractTitle", .jstr d.contractTitle)]
    ++ optJField "contractNumber" (d.contractNumber.map .jstr)
    ++ [("effectiveDate", .jstr d.effectiveDate)]
    ++ optJField "expirationDate" (d.expirationDate.map .jstr)
    ++ [("parties", .jarr (d.parties.map Party.toJval))]
    ++ optJField "contractValue" (d.contractValue.map ContractValue.toJval)
    ++ [("keyTerms", .jarr (d.keyTerms.map .jstr)),
        ("obligations", .jarr (d.obligations.map Obligation.toJval))]
    ++ optJField "renewalTerms" (d.renewalTerms.map .jstr)
    ++ optJField "terminationClauses"
        ((d.terminationClauses.map fun xs => .jarr (xs.map .jstr)))
    ++ optJField "governingLaw" (d.governingLaw.map .jstr)
    ++ optJField "specialProvisions"
        ((d.specialProvisions.map fun xs => .jarr (xs.map .jstr)))
    ++ optJField "aiSummary" (d.aiSummary.map .jstr)
    ++ optJField "templateData" (d.templateData.map .jstr))

/-! ## `AIService.generateDemoData` (the fallback / demo mode) -/

/-- The `templateData` string `AIService.generateTemplateData` builds. -/
def AIService.generateTemplateData (contractText : String) : String :=
  "DEMO TEMPLATE DATA\n\nThis contract has been parsed into the placeholder template format.\n\nCONTRACT SECTIONS:\n1. Parties & Basic Information\n2. Terms & Conditions\n3. Financial Obligations\n4. Renewal & Termination\n\nEXTRACTED TEXT PREVIEW:\n"
    ++ contractText.take 500
    ++ "...\n\nNote: Configure ANTHROPIC_API_KEY to parse contracts into your custom template format."

/-- Model of `AIService.generateDemoData`: the synthetic record the fallback mode
returns. `contractText.split('\n')[0]?.substring(0, 100) || 'Sample
Contract'` and `firstLine.trim() || 'Demo Service Agreement'` are modelled
with `jsOrStr`; `substring` truncation is `String.take`. -/
def AIService.generateDemoData (contractText : String) : ContractData :=
  let firstLine :=
    jsOrStr (((contractText.splitOn "\n").headD "").take 100) "Sample Contract"
  { contractTitle := jsOrStr firstLine.trim "Demo Service Agreement"
    contractNumber := some "DEMO-2025-001"
    effectiveDate := "2025-01-01"
    expirationDate := some "2026-01-01"
    parties :=
      [{ name := "Demo Company LLC", role := "provider",
         address := some "123 Demo Street, Demo City, DC 12345" },
       { name := "Sample Client Corp", role := "recipient",
         address := some "456 Sample Avenue, Sample Town, ST 67890" }]
    contractValue := some { amount := some 50000, currency := some "USD" }
    keyTerms :=
      ["Services to be provided as outlined in Exhibit A",
       "Payment terms: Net 30 days",
       "Confidentiality obligations apply to both parties",
       "Contract text preview: " ++ contractText.take 150 ++ "..."]
    obligations :=
      [{ party := "Demo Company LLC",
         description := "Provide services as specified in the contract" },
       { party := "Sample Client Corp",
         description := "Make timely payments and provide necessary access" }]
    renewalTerms :=
      some "Auto-renewal for 1 year unless terminated with 30 days notice"
    terminationClauses :=
      some ["Either party may terminate with 30 days written notice",
            "Immediate termination allowed for material breach"]
    governingLaw := some "State of Demo"
    specialProvisions :=
      some ["This is DEMO DATA - no real AI extraction was performed",
            "Configure ANTHROPIC_API_KEY in .env for real extraction"]
    aiSummary :=
      some ("EXECUTIVE SUMMARY (Demo Mode)\n\nThis service agreement establishes a 12-month engagement between Demo Company LLC (Provider) and Sample Client Corp (Recipient) with a total contract value of $50,000 USD.\n\nKey Points:\n• Contract Duration: January 1, 2025 - January 1, 2026\n• Financial Terms: $50,000 USD total value\n• Auto-renewal provisions with 30-day notice requirement\n• Standard termination clauses for both convenience and breach scenarios\n\nThe agreement includes standard provisions for services delivery, payment terms (Net 30), and mutual confidentiality obligations. Governing law is under State of Demo jurisdiction.\n\nNote: This is generated demo data. Configure ANTHROPIC_API_KEY for real AI-powered summaries.")
    templateData := some (AIService.generateTemplateData contractText) }

/-! ## Concrete sample values for instantiating the theorems -/

def sampleContractData : ContractData :=
  { contractTitle := "T"
    contractNumber := none
    effectiveDate := "2025-01-01"
    expirationDate := none
    parties := []
    contractValue := none
    keyTerms := []
    obligations := []
    renewalTerms := none
    terminationClauses := none
    governingLaw := none
    specialProvisions := none
    aiSummary := none
    templateData := none }

def sampleJob : ProcessingJob :=
  { id := "job-1"
    filename := "c.pdf"
    status := .pending
    createdAt := 0
    completedAt := none
    error := none
    contractData := none
    confluencePageUrl := none
    targetConfluenceUrl := none }

/-- A provider environment in which every stage succeeds. -/
def providersAllOk : Providers :=
  { isValidPDF := true
    extractText := .ok "text"
    extractContractData := fun _ => .ok sampleContractData
    createContractPage := fun _ _ => .ok "https://conf.example/page" }

/-- A provider environment whose payload fails the signature check. -/
def providersBadPDF : Providers :=
  { providersAllOk with isValidPDF := false }

/-! ## Helper lemmas -/

theorem Registry.get_set_self (r : Registry) (id : String) (j : ProcessingJob) :
    (r.set id j).get id = some j := by
  induction r with
  | nil => simp [Registry.set, Registry.get]
  | cons hd tl ih =>
      obtain ⟨k, v⟩ := hd
      by_cases h : k = id
      · simp [Registry.set, Registry.get, h]
      · simp [Registry.set, Registry.get, h, ih]

theorem Registry.get_set_ne (r : Registry) (id id' : String) (j : ProcessingJob)
    (h : id' ≠ id) : (r.set id j).get id' = r.get id' := by
  induction r with
  | nil => simp [Registry.set, Registry.get, Ne.symm h]
  | cons hd tl ih =>
      obtain ⟨k, v⟩ := hd
      by_cases hk : k = id
      · subst hk
        simp [Registry.set, Registry.get, Ne.symm h]
      · by_cases hk' : k = id'
        · simp [Registry.set, Registry.get, hk, hk', h]
        · simp [Registry.set, Registry.get, hk, hk', ih]

theorem Registry.length_set_of_get_none (r : Registry) (id : String)
    (j : ProcessingJob) (h : r.get id = none) :
    (r.set id j).length = r.length + 1 := by
  induction r with
  | nil => simp [Registry.set]
  | cons hd tl ih =>
      obtain ⟨k, v⟩ := hd
      by_cases hk : k = id
      · simp [Registry.get, hk] at h
      · simp [Registry.get, hk] at h
        simp [Registry.set, hk, ih h]

/-! ## Claim theorems -/

/-- C9: the status queries `getJobStatus` and `getAllJobs` are read-only —
for every registry state and every job id, both leave the id-to-job map
(and hence every job record in it) unchanged. -/
theorem getJobStatus_getAllJobs_readonly (jobs : Registry) (jobId : String) :
    (getJobStatus jobs jobId).2 = jobs ∧ (getAllJobs jobs).2 = jobs :=
  ⟨rfl, rfl⟩

/-- C3: `processContract` returns the fresh job id, and the registry it
leaves behind already holds a record under that id with status `pending`
(so the id is immediately valid for status queries); exactly one job is
created — the map grows by one entry and every other id is untouched. The
pipeline stages play no part: `processContract` is not even a function of
the provider environment. -/
theorem processContract_submits_pending_job (jobs : Registry)
    (jobId filePath filename : String) (tgt : Option String) (now : Nat)
    (hfresh : jobs.get jobId = none) :
    (processContract jobs jobId filePath filename tgt now).1 = jobId ∧
    (processContract jobs jobId filePath filename tgt now).2.get jobId =
      some { id := jobId, filename := filename, status := .pending,
             createdAt := now, completedAt := none, error := none,
             contractData := none, confluencePageUrl := none,
             targetConfluenceUrl := tgt } ∧
    (processContract jobs jobId filePath filename tgt now).2.length
      = jobs.length + 1 ∧
    (∀ other, other ≠ jobId →
      (processContract jobs jobId filePath filename tgt now).2.get other
        = jobs.get other) := by
  refine ⟨rfl, ?_, ?_, ?_⟩
  · simp [processContract, Registry.get_set_self]
  · simp [processContract, Registry.length_set_of_get_none jobs jobId _ hfresh]
  · intro other hne
    simp [processContract, Registry.get_set_ne jobs jobId other _ hne]

/-- C3 witness: submitting into the empty registry under id "job-1". -/
theorem processContract_submits_pending_job_witness :
    (processContract [] "job-1" "/uploads/f" "c.pdf" none 0).1 = "job-1" ∧
    (processContract [] "job-1" "/uploads/f" "c.pdf" none 0).2.get "job-1" =
      some { id := "job-1", filename := "c.pdf", status := .pending,
             createdAt := 0, completedAt := none, error := none,
             contractData := none, confluencePageUrl := none,
             targetConfluenceUrl := none } ∧
    (processContract [] "job-1" "/uploads/f" "c.pdf" none 0).2.length
      = ([] : Registry).length + 1 ∧
    (∀ other, other ≠ "job-1" →
      (processContract [] "job-1" "/uploads/f" "c.pdf" none 0).2.get other
        = Registry.get [] other) :=
  processContract_submits_pending_job [] "job-1" "/uploads/f" "c.pdf" none 0 rfl

/-- C1: the pipeline stages run strictly in order validate → extract-text →
extract-structure → publish, each gated on the previous succeeding; if a
stage raises, the job ends `failed` carrying that error's message and no
later stage runs; if all succeed, the job ends `completed` with
`completedAt` set and `contractData` / `confluencePageUrl` populated. -/
theorem executeProcessing_stage_order_and_terminal (p : Providers) (t : Nat)
    (job : ProcessingJob) :
    ((executeProcessing p t job).textCalled = true → p.isValidPDF = true) ∧
    ((executeProcessing p t job).aiCalled = true →
      (executeProcessing p t job).textCalled = true) ∧
    ((executeProcessing p t job).publishArg.isSome →
      (executeProcessing p t job).aiCalled = true) ∧
    (p.isValidPDF = false →
      (executeProcessing p t job).job.status = .failed ∧
      (executeProcessing p t job).job.error = some "Invalid PDF file" ∧
      (executeProcessing p t job).textCalled = false ∧
      (executeProcessing p t job).aiCalled = false ∧
      (executeProcessing p t job).publishArg = none) ∧
    (∀ e, p.isValidPDF = true → p.extractText = .error e →
      (executeProcessing p t job).job.status = .failed ∧
      (executeProcessing p t job).job.error = some e ∧
      (executeProcessing p t job).aiCalled = false ∧
      (executeProcessing p t job).publishArg = none) ∧
    (∀ s e, p.isValidPDF = true → p.extractText = .ok s →
      p.extractContractData s = .error e →
      (executeProcessing p t job).job.status = .failed ∧
      (executeProcessing p t job).job.error = some e ∧
      (executeProcessing p t job).publishArg = none) ∧
    (∀ s d e, p.isValidPDF = true → p.extractText = .ok s →
      p.extractContractData s = .ok d →
      p.createContractPage d job.targetConfluenceUrl = .error e →
      (executeProcessing p t job).job.status = .failed ∧
      (executeProcessing p t job).job.error = some e) ∧
    (∀ s d u, p.isValidPDF = true → p.extractText = .ok s →
      p.extractContractData s = .ok d →
      p.createContractPage d job.targetConfluenceUrl = .ok u →
      (executeProcessing p t job).job.status = .completed ∧
      (executeProcessing p t job).job.completedAt = some t ∧
      (executeProcessing p t job).job.contractData = some d ∧
      (executeProcessing p t job).job.confluencePageUrl = some u) := by
  refine ⟨?_, ?_, ?_, ?_, ?_, ?_, ?_, ?_⟩
  · intro h
    by_contra hb
    rw [Bool.not_eq_true] at hb
    simp [executeProcessing, runStages, hb] at h
  · intro h
    rcases hb : p.isValidPDF with _ | _
    · simp [executeProcessing, runStages, hb] at h
    · rcases he : p.extractText with e | s
      · simp [executeProcessing, runStages, hb, he] at h
      · simp [executeProcessing, runStages, hb, he]
        split <;> first | rfl | (split <;> rfl)
  · intro h
    rcases hb : p.isValidPDF with _ | _
    · simp [executeProcessing, runStages, hb] at h
    · rcases he : p.extractText with e | s
      · simp [executeProcessing, runStages, hb, he] at h
      · rcases hd : p.extractContractData s with e | d
        · simp [executeProcessing, runStages, hb, he, hd] at h
        · simp [executeProcessing, runStages, hb, he, hd]
          split <;> rfl
  · intro hb
    simp [executeProcessing, runStages, hb, failJob]
  · intro e hb he
    simp [executeProcessing, runStages, hb, he, failJob]
  · intro s e hb he hd
    simp [executeProcessing, runStages, hb, he, hd, failJob]
  · intro s d e hb he hd hc
    simp [executeProcessing, runStages, hb, he, hd, hc, failJob]
  · intro s d u hb he hd hc
    simp [executeProcessing, runStages, hb, he, hd, hc]

/-- C1 witness: the all-success environment drives the sample job to
`completed` with both outputs populated. -/
theorem executeProcessing_stage_order_and_terminal_witness :
    (executeProcessing providersAllOk 7 sampleJob).job.status = .completed ∧
    (executeProcessing providersAllOk 7 sampleJob).job.completedAt = some 7 ∧
    (executeProcessing providersAllOk 7 sampleJob).job.contractData
      = some sampleContractData ∧
    (executeProcessing providersAllOk 7 sampleJob).job.confluencePageUrl
      = some "https://conf.example/page" :=
  (executeProcessing_stage_order_and_terminal providersAllOk 7
      sampleJob).2.2.2.2.2.2.2
    "text" sampleContractData "https://conf.example/page" rfl rfl rfl rfl

theorem runStages_fieldsConsistent (p : Providers) (t : Nat)
    (job : ProcessingJob) (h1 : job.contractData = none)
    (h2 : job.confluencePageUrl = none) (h3 : job.error = none) :
    jobFieldsConsistent (runStages p t job).job := by
  unfold runStages
  split
  · simp [failJob, jobFieldsConsistent, h1, h2]
  · split
    · simp [failJob, jobFieldsConsistent, h1, h2]
    · split
      · simp [failJob, jobFieldsConsistent, h1, h2]
      · split
        · simp [failJob, jobFieldsConsistent, h1, h2]
        · simp [jobFieldsConsistent, h3]

theorem reach_jobFieldsConsistent (p : Providers) (r : Registry)
    (h : Reach p r) :
    ∀ id job, r.get id = some job → jobFieldsConsistent job := by
  induction h with
  | nil =>
      intro id job hget
      simp [Registry.get] at hget
  | submit r jobId filePath filename tgt t hr ih =>
      intro id job hget
      by_cases he : id = jobId
      · subst he
        simp [processContract, Registry.get_set_self] at hget
        simp [← hget, jobFieldsConsistent]
      · simp only [processContract] at hget
        rw [Registry.get_set_ne _ _ _ _ he] at hget
        exact ih id job hget
  | start r jobId job hr hget hpending ih =>
      intro id job' hget'
      by_cases he : id = jobId
      · subst he
        rw [Registry.get_set_self] at hget'
        obtain ⟨hc, hu, herr⟩ := ih id job hget
        injection hget' with hj
        subst hj
        simp only [jobFieldsConsistent] at *
        simp [hpending] at hc hu herr
        simp [hc, hu, herr]
      · rw [Registry.get_set_ne _ _ _ _ he] at hget'
        exact ih id job' hget'
  | finish r jobId job t hr hget hproc ih =>
      intro id job' hget'
      by_cases he : id = jobId
      · subst he
        rw [Registry.get_set_self] at hget'
        obtain ⟨hc, hu, herr⟩ := ih id job hget
        simp [hproc] at hc hu herr
        injection hget' with hj
        subst hj
        exact runStages_fieldsConsistent p t job
          (by simpa using hc) (by simpa using hu) (by simpa using herr)
      · rw [Registry.get_set_ne _ _ _ _ he] at hget'
        exact ih id job' hget'

/-- C2: in every registry state the service can reach, each job record
satisfies: `contractData` and `confluencePageUrl` present iff status is
`completed`, `error` present iff status is `failed`, and never both sides
present on the same job. -/
theorem reachable_job_terminal_fields (p : Providers) (r : Registry)
    (h : Reach p r) (id : String) (job : ProcessingJob)
    (hget : r.get id = some job) :
    (job.contractData.isSome ↔ job.status = .completed) ∧
    (job.confluencePageUrl.isSome ↔ job.status = .completed) ∧
    (job.error.isSome ↔ job.status = .failed) ∧
    ¬(job.contractData.isSome ∧ job.error.isSome) ∧
    ¬(job.confluencePageUrl.isSome ∧ job.error.isSome) := by
  obtain ⟨hc, hu, herr⟩ := reach_jobFieldsConsistent p r h id job hget
  refine ⟨hc, hu, herr, ?_, ?_⟩
  · rintro ⟨h1, h2⟩
    rw [hc] at h1
    rw [herr] at h2
    rw [h1] at h2
    exact JobStatus.noConfusion h2
  · rintro ⟨h1, h2⟩
    rw [hu] at h1
    rw [herr] at h2
    rw [h1] at h2
    exact JobStatus.noConfusion h2

/-- C2 witness: the registry holding one freshly submitted job. -/
theorem reachable_job_terminal_fields_witness :
    ((sampleJob.contractData.isSome ↔ sampleJob.status = .completed) ∧
     (sampleJob.confluencePageUrl.isSome ↔ sampleJob.status = .completed) ∧
     (sampleJob.error.isSome ↔ sampleJob.status = .failed) ∧
     ¬(sampleJob.contractData.isSome ∧ sampleJob.error.isSome) ∧
     ¬(sampleJob.confluencePageUrl.isSome ∧ sampleJob.error.isSome)) :=
  reachable_job_terminal_fields providersAllOk _
    (Reach.submit [] "job-1" "/uploads/f" "c.pdf" none 0 Reach.nil)
    "job-1" sampleJob (by decide)

/-- C4 counterexample: a payload failing the signature check drives the job
to `failed`, but the recorded failure reason is the thrown message
"Invalid PDF file", not the literal "invalid document" the claim states. -/
theorem invalid_signature_reason_not_invalid_document :
    (executeProcessing providersBadPDF 0 sampleJob).job.status = .failed ∧
    (executeProcessing providersBadPDF 0 sampleJob).job.error
      = some "Invalid PDF file" ∧
    (executeProcessing providersBadPDF 0 sampleJob).job.error
      ≠ some "invalid document" := by
  refine ⟨rfl, rfl, ?_⟩
  decide

/-- C4 (amended): a payload failing the binary-signature check drives the
job to `failed` with failure reason "Invalid PDF file" (the message of the
error the Validate stage throws), and none of the three providers — text
extraction, structured extraction, publishing — is invoked. -/
theorem invalid_signature_fails_without_provider_calls (p : Providers)
    (t : Nat) (job : ProcessingJob) (h : p.isValidPDF = false) :
    (executeProcessing p t job).job.status = .failed ∧
    (executeProcessing p t job).job.error = some "Invalid PDF file" ∧
    (executeProcessing p t job).textCalled = false ∧
    (executeProcessing p t job).aiCalled = false ∧
    (executeProcessing p t job).publishArg = none := by
  simp [executeProcessing, runStages, h, failJob]

/-- C4 witness: the bad-signature environment at the sample job. -/
theorem invalid_signature_fails_without_provider_calls_witness :
    (executeProcessing providersBadPDF 0 sampleJob).job.status = .failed ∧
    (executeProcessing providersBadPDF 0 sampleJob).job.error
      = some "Invalid PDF file" ∧
    (executeProcessing providersBadPDF 0 sampleJob).textCalled = false ∧
    (executeProcessing providersBadPDF 0 sampleJob).aiCalled = false ∧
    (executeProcessing providersBadPDF 0 sampleJob).publishArg = none :=
  invalid_signature_fails_without_provider_calls providersBadPDF 0 sampleJob
    rfl

/-- C5 counterexample: a POST request that carries `publishTarget` in its
body still produces a job whose stored target is `none` — the route handler
forwards only `req.file.path` and `req.file.originalname`, so the supplied
value is not stored on the job (and hence cannot reach the publish call). -/
theorem route_drops_publishTarget :
    ((postProcessRoute []
        { file := some { path := "/uploads/x", originalname := "c.pdf",
                         mimetype := "application/pdf" },
          publishTarget := some "https://target.example/page" }
        "job-1" 0).2.get "job-1").map ProcessingJob.targetConfluenceUrl
      = some none ∧
    some (none : Option String) ≠ some (some "https://target.example/page") := by
  refine ⟨rfl, ?_⟩
  decide

/-- C5 (amended): the HTTP route never forwards the body's `publishTarget` —
every job created through POST carries target `none`; the pass-through the
spec describes exists only below the route: a target handed directly to
`processContract` is stored on the job unchanged, and whenever the
publishing provider is invoked its target argument is exactly the job's
stored target. -/
theorem publishTarget_threading (jobs : Registry) (req : PostRequest)
    (freshId : String) (now : Nat) (f : UploadedFile)
    (hfile : req.file = some f) (hmime : f.mimetype = "application/pdf") :
    (((postProcessRoute jobs req freshId now).2.get freshId).map
        ProcessingJob.targetConfluenceUrl = some none) ∧
    (∀ (jobs' : Registry) (id filePath filename : String)
        (tgt : Option String) (t : Nat),
      ((processContract jobs' id filePath filename tgt t).2.get id).map
          ProcessingJob.targetConfluenceUrl = some tgt) ∧
    (∀ (p : Providers) (t : Nat) (job : ProcessingJob)
        (d : ContractData) (tg : Option String),
      (executeProcessing p t job).publishArg = some (d, tg) →
      tg = job.targetConfluenceUrl) := by
  refine ⟨?_, ?_, ?_⟩
  · simp [postProcessRoute, hfile, hmime, processContract,
      Registry.get_set_self]
  · intro jobs' id filePath filename tgt t
    simp [processContract, Registry.get_set_self]
  · intro p t job d tg h
    rcases hb : p.isValidPDF with _ | _ <;>
      simp [executeProcessing, runStages, hb] at h
    rcases he : p.extractText with e | s <;> simp [he] at h
    rcases hd : p.extractContractData s with e | dd <;> simp [hd] at h
    rcases hc : p.createContractPage dd job.targetConfluenceUrl with e | u <;>
      simp [hc] at h <;> simp [h]

/-- C5 witness: a pdf upload whose request also carries a target, plus the
pass-through facts at concrete values. -/
theorem publishTarget_threading_witness :
    ((((postProcessRoute []
          { file := some { path := "/uploads/x", originalname := "c.pdf",
                           mimetype := "application/pdf" },
            publishTarget := some "https://target.example/page" }
          "job-1" 0).2.get "job-1").map
        ProcessingJob.targetConfluenceUrl = some none) ∧
     (∀ (jobs' : Registry) (id filePath filename : String)
         (tgt : Option String) (t : Nat),
       ((processContract jobs' id filePath filename tgt t).2.get id).map
           ProcessingJob.targetConfluenceUrl = some tgt) ∧
     (∀ (p : Providers) (t : Nat) (job : ProcessingJob)
         (d : ContractData) (tg : Option String),
       (executeProcessing p t job).publishArg = some (d, tg) →
       tg = job.targetConfluenceUrl)) :=
  publishTarget_threading []
    { file := some { path := "/uploads/x", originalname := "c.pdf",
                     mimetype := "application/pdf" },
      publishTarget := some "https://target.example/page" }
    "job-1" 0
    { path := "/uploads/x", originalname := "c.pdf",
      mimetype := "application/pdf" }
    rfl rfl

/-- C6: behaviour of the submission endpoint at the three request shapes.
A request with no file gets 400 and creates no job, and a valid PDF upload
gets 202 with the job id and status URL — as claimed. But a request whose
file has the wrong document type gets 500, not the claimed 400: multer's
rejection `Error('Only PDF files are allowed')` reaches only the inline
handler of `index.ts` (`err.status || 500`), because the `errorHandler` of
`error.middleware.ts` that maps this message to 400 is never registered. -/
theorem post_route_status_codes :
    (postProcessRoute [] { file := none, publishTarget := none }
        "job-1" 0).1.status = 400 ∧
    (postProcessRoute [] { file := none, publishTarget := none }
        "job-1" 0).2 = [] ∧
    (postProcessRoute []
        { file := some { path := "/uploads/x", originalname := "c.txt",
                         mimetype := "text/plain" },
          publishTarget := none } "job-1" 0).1.status = 500 ∧
    (postProcessRoute []
        { file := some { path := "/uploads/x", originalname := "c.txt",
                         mimetype := "text/plain" },
          publishTarget := none } "job-1" 0).1.error
      = some "Only PDF files are allowed" ∧
    (postProcessRoute []
        { file := some { path := "/uploads/x", originalname := "c.txt",
                         mimetype := "text/plain" },
          publishTarget := none } "job-1" 0).2 = [] ∧
    (postProcessRoute []
        { file := some { path := "/uploads/x", originalname := "c.pdf",
                         mimetype := "application/pdf" },
          publishTarget := none } "job-1" 0).1.status = 202 ∧
    (postProcessRoute []
        { file := some { path := "/uploads/x", originalname := "c.pdf",
                         mimetype := "application/pdf" },
          publishTarget := none } "job-1" 0).1.jobId = some "job-1" ∧
    (postProcessRoute []
        { file := some { path := "/uploads/x", originalname := "c.pdf",
                         mimetype := "application/pdf" },
          publishTarget := none } "job-1" 0).1.statusUrl
      = some "/api/contracts/job-1/status" := by
  refine ⟨rfl, rfl, rfl, rfl, rfl, rfl, rfl, ?_⟩
  decide

theorem decodeByte_toNat (b : Nat) (h : b < 128) : (decodeByte b).toNat = b := by
  have hv : b.isValidChar := Or.inl (by omega)
  simp [decodeByte, h, Char.ofNat, hv, Char.toNat, Char.ofNatAux,
    UInt32.toNat, BitVec.toNat_ofNatLt]

theorem decodeByte_eq_ascii (b : Nat) (c : Char) (hc : c.toNat < 128) :
    decodeByte b = c ↔ b = c.toNat := by
  constructor
  · intro h
    by_cases hb : b < 128
    · rw [← h, decodeByte_toNat b hb]
    · rw [decodeByte, if_neg hb] at h
      rw [← h] at hc
      simp at hc
  · intro h
    subst h
    rw [decodeByte, if_pos hc]
    exact Char.ofNat_toNat c

theorem map_decodeByte_eq_ascii (l : List Nat) (cs : List Char)
    (hc : ∀ c ∈ cs, c.toNat < 128) :
    l.map decodeByte = cs ↔ l = cs.map Char.toNat := by
  induction l generalizing cs with
  | nil =>
      cases cs with
      | nil => simp
      | cons c cs' => simp
  | cons b l ih =>
      cases cs with
      | nil => simp
      | cons c cs' =>
          have h1 : c.toNat < 128 := hc c (by simp)
          have h2 : ∀ c' ∈ cs', c'.toNat < 128 := fun c' hm => hc c' (by simp [hm])
          simp [decodeByte_eq_ascii b c h1, ih cs' h2]

/-- C8: `isValidPDF` is total and never raises — a failed read yields
`false` (the `catch` branch), and for a successfully read file it returns
`true` exactly when the first five bytes decode to the string "%PDF-",
which happens iff they are the magic bytes `%PDF-`. -/
theorem isValidPDF_total_and_magic :
    PDFService.isValidPDF none = false ∧
    ∀ bytes, (PDFService.isValidPDF (some bytes) = true ↔
      bytes.take 5 = pdfMagic) := by
  refine ⟨rfl, ?_⟩
  intro bytes
  have hmagic : ("%PDF-" : String).data = ['%', 'P', 'D', 'F', '-'] := rfl
  have hascii : ∀ c ∈ ['%', 'P', 'D', 'F', '-'], c.toNat < 128 := by decide
  calc PDFService.isValidPDF (some bytes) = true
      ↔ bufToStringUtf8 bytes 0 5 = "%PDF-" := by
        simp [PDFService.isValidPDF]
    _ ↔ (bytes.take 5).map decodeByte = ['%', 'P', 'D', 'F', '-'] := by
        rw [bufToStringUtf8, String.ext_iff, hmagic]
        simp
    _ ↔ bytes.take 5 = pdfMagic := by
        rw [map_decodeByte_eq_ascii _ _ hascii]
        rfl

/-- C10 counterexample: in demo mode a caller-supplied empty-string target
is NOT returned verbatim — JavaScript `targetUrl || …` treats the empty
string as falsy, so the synthetic locator is returned instead. -/
theorem demo_publish_empty_target_not_verbatim :
    ConfluenceService.createContractPage true (.error "unused")
        sampleContractData (some "")
      = .ok ("https://demo.confluence.com/wiki/spaces/DEMO/pages/123456/T",
             false) ∧
    ("https://demo.confluence.com/wiki/spaces/DEMO/pages/123456/T" : String)
      ≠ "" := by
  refine ⟨rfl, ?_⟩
  decide

/-- C10 (amended): in demo mode `createContractPage` makes no remote call
and returns the caller-supplied target verbatim when a NON-EMPTY one is
given; when the target is absent or the empty string (both falsy in
JavaScript) it returns the synthetic demo locator derived from the
contract title. -/
theorem demo_publish_returns_target_or_demo_locator
    (remotePost : Except String String) (d : ContractData)
    (tgt : Option String) :
    (∀ s, tgt = some s → s ≠ "" →
      ConfluenceService.createContractPage true remotePost d tgt
        = .ok (s, false)) ∧
    ((tgt = none ∨ tgt = some "") →
      ConfluenceService.createContractPage true remotePost d tgt
        = .ok ("https://demo.confluence.com/wiki/spaces/DEMO/pages/123456/"
                ++ encodeURIComponent d.contractTitle, false)) := by
  constructor
  · rintro s rfl hs
    simp [ConfluenceService.createContractPage, jsOrElse, hs]
  · rintro (rfl | rfl) <;>
      simp [ConfluenceService.createContractPage, jsOrElse, demoPageUrl]

/-- C10 witness: a non-empty target comes back verbatim with no remote
call. -/
theorem demo_publish_returns_target_or_demo_locator_witness :
    ConfluenceService.createContractPage true (.error "unused")
        sampleContractData (some "https://t.example")
      = .ok ("https://t.example", false) :=
  (demo_publish_returns_target_or_demo_locator (.error "unused")
      sampleContractData (some "https://t.example")).1
    "https://t.example" rfl (by decide)

set_option maxHeartbeats 2000000 in
/-- C7: for every input text, the fallback (demo-mode) structured record
validates against `ContractDataSchema`, and its free-text
`specialProvisions` flag the record as synthetic demo data. -/
theorem demo_data_schema_valid (contractText : String) :
    ContractDataSchema.validate
        (AIService.generateDemoData contractText).toJval = true ∧
    "This is DEMO DATA - no real AI extraction was performed"
      ∈ (AIService.generateDemoData contractText).specialProvisions.getD [] := by
  constructor
  · rfl
  · simp [AIService.generateDemoData]

end ContractProcessor
